import Mathlib

/-!
Verification of the `cosmos` repository's natural-language specification.

Floating-point values of the Python source are embedded as rationals (every
IEEE float is a rational number); quantities that intrinsically involve
logarithms or square roots are embedded over the reals.  NumPy / SciPy library
helpers used by the source (`np.median`, `np.max`, `np.std`, `np.argmax`,
`scipy.signal.find_peaks`) are modelled by the explicit Lean definitions below,
following their documented behaviour.
-/

namespace Cosmos

/-- `np.max` of a list (maximum of a non-empty list; `0` for the empty list,
which never occurs at the call sites that matter). -/
def npMax (xs : List ℚ) : ℚ :=
  match xs with
  | [] => 0
  | y :: ys => ys.foldl max y

/-- `np.min` of a list. -/
def npMin (xs : List ℚ) : ℚ :=
  match xs with
  | [] => 0
  | y :: ys => ys.foldl min y

/-- `np.median`: sort, take the middle element for odd length and the mean of
the two middle elements for even length. -/
def npMedian (xs : List ℚ) : ℚ :=
  let s := List.insertionSort (· ≤ ·) xs
  if xs.length % 2 = 1 then s.getD (xs.length / 2) 0
  else (s.getD (xs.length / 2 - 1) 0 + s.getD (xs.length / 2) 0) / 2

/-- Mean of a list (`np.mean`). -/
def npMean (xs : List ℚ) : ℚ := xs.sum / xs.length

/-- Population variance, i.e. the square of `np.std`:
`mean((x - mean(x))^2)`. -/
def npVariance (xs : List ℚ) : ℚ :=
  npMean (xs.map (fun x => (x - npMean xs) ^ 2))

/-- Index of the first maximal element (`np.argmax`); auxiliary recursion
carrying the best value, its index, and the current index. -/
def listArgmaxAux : List ℚ → ℚ → ℕ → ℕ → ℕ
  | [], _, bi, _ => bi
  | x :: xs, bv, bi, i =>
      if bv < x then listArgmaxAux xs x i (i + 1) else listArgmaxAux xs bv bi (i + 1)

/-- `np.argmax` of a list (first index attaining the maximum). -/
def listArgmax (xs : List ℚ) : ℕ :=
  match xs with
  | [] => 0
  | x :: rest => listArgmaxAux rest x 0 1

/-- Index of the first minimal element (`np.argmin`); auxiliary recursion. -/
def listArgminAux : List ℚ → ℚ → ℕ → ℕ → ℕ
  | [], _, bi, _ => bi
  | x :: xs, bv, bi, i =>
      if x < bv then listArgminAux xs x i (i + 1) else listArgminAux xs bv bi (i + 1)

/-- `np.argmin` of a list (first index attaining the minimum). -/
def listArgmin (xs : List ℚ) : ℕ :=
  match xs with
  | [] => 0
  | x :: rest => listArgminAux rest x 0 1

end Cosmos

namespace PatternDetector

/-- The fields of the analysis dictionary built by
`PatternDetector.analyze_signal` that are read by
`_calculate_artificiality_score`:
* `runs_is_random` — `analysis['randomness']['runs_test']['is_random']`;
  `none` when the runs test was skipped (all data on one side of the median);
* `n_significant_periods` — `analysis['periodicity']['n_significant_periods']`,
  the length of the list of significant periodicities; the source stores the
  derived flag `is_periodic = len(periodicities) > 0` alongside it;
* `max_repetitions` — `analysis['mathematical_patterns']['repetition']
  ['max_repetitions']`; the source stores the derived flag
  `has_repetition = max_repeats >= 2` alongside it;
* `normalized_entropy` — `analysis['entropy']['normalized_entropy']`;
* `pulses_is_regular` — `analysis['pulses']['is_regular']`;
* `has_narrow_lines` — `analysis['spectral']['has_narrow_lines']`;
* `has_am`, `has_fm` — `analysis['modulation']['has_am'] / ['has_fm']`. -/
structure SignalAnalysis where
  runs_is_random : Option Bool
  n_significant_periods : ℕ
  max_repetitions : ℕ
  normalized_entropy : ℚ
  pulses_is_regular : Bool
  has_narrow_lines : Bool
  has_am : Bool
  has_fm : Bool

/-- Result dictionary of `_calculate_artificiality_score` (the `reasons` list
is omitted: no claim mentions it). -/
structure ArtificialityScore where
  score : ℕ
  classification : String
deriving DecidableEq

/-- The raw point total accumulated by
`PatternDetector._calculate_artificiality_score` before the `min(100, score)`
cap, exactly as in the source: the flags `is_periodic` and `has_repetition`
read from the analysis dictionary are expanded to their defining expressions
`n_significant_periods > 0` and `max_repetitions >= 2` from
`_detect_periodicity` and `_find_repeating_sequences`. -/
def artificialityPoints (a : SignalAnalysis) : ℕ :=
  (if a.runs_is_random = some false then 20 else 0) +
  (if 0 < a.n_significant_periods then min 30 (a.n_significant_periods * 10) else 0) +
  (if 2 ≤ a.max_repetitions then 15 else 0) +
  (if a.normalized_entropy < 1/2 then 15 else 0) +
  (if a.pulses_is_regular then 20 else 0) +
  (if a.has_narrow_lines then 15 else 0) +
  (if a.has_am || a.has_fm then 10 else 0)

/-- `PatternDetector._calculate_artificiality_score`: the classification is
computed from the uncapped point total, the reported score is capped at 100. -/
def calculate_artificiality_score (a : SignalAnalysis) : ArtificialityScore :=
  let score := artificialityPoints a
  { score := min 100 score
    classification :=
      if 70 ≤ score then "HIGHLY ARTIFICIAL - Strong candidate for intelligent signal"
      else if 50 ≤ score then "POSSIBLY ARTIFICIAL - Warrants further investigation"
      else if 30 ≤ score then "STRUCTURED - Some non-random patterns"
      else "NATURAL - Consistent with random/natural processes" }

/-- The point total as written in the specification: the sum of independent
contributions, +20 if the runs test reports non-random, +min(30, 10·n_periods)
if at least one significant period was found, +15 if a repeating subsequence
repeats at least 2 times, +15 if normalized entropy is below 0.5, +20 if pulse
intervals are regular, +15 if narrow spectral lines are flagged, and +10 if AM
or FM modulation is flagged. -/
def specPointSum (a : SignalAnalysis) : ℕ :=
  (if a.runs_is_random = some false then 20 else 0) +
  (if 1 ≤ a.n_significant_periods then min 30 (10 * a.n_significant_periods) else 0) +
  (if 2 ≤ a.max_repetitions then 15 else 0) +
  (if a.normalized_entropy < 1/2 then 15 else 0) +
  (if a.pulses_is_regular then 20 else 0) +
  (if a.has_narrow_lines then 15 else 0) +
  (if a.has_am || a.has_fm then 10 else 0)

end PatternDetector

namespace StellarSeismology

/-- Solar calibration anchors set in `StellarSeismologyAnalyzer.__init__`:
`solar_nu_max = 3090.0` μHz, `solar_delta_nu = 135.1` μHz. -/
def solar_nu_max : ℚ := 3090

/-- Solar large separation anchor, 135.1 μHz. -/
def solar_delta_nu : ℚ := 135.1

/-- The stellar parameters derived by
`StellarSeismologyAnalyzer._estimate_stellar_parameters`.  `log_g` is real
valued (base-10 logarithm); the other scaling relations are exact rational
arithmetic.  The `teff_K` and `evolutionary_stage` fields of the source are
derived from these and are not referenced by any claim, so they are omitted. -/
structure StellarParams where
  mass_solar : ℚ
  radius_solar : ℚ
  log_g : ℝ
  density_solar : ℚ
  age_gyr : ℚ

/-- `StellarSeismologyAnalyzer._estimate_stellar_parameters`:
mass = (ν_max/3090)³·(Δν/135.1)⁻⁴, radius = (ν_max/3090)·(Δν/135.1)⁻²,
log g = log10(mass/radius²) + 4.437, density = (Δν/135.1)². -/
noncomputable def estimate_stellar_parameters (nu_max delta_nu : ℚ) : StellarParams :=
  let mass : ℚ := (nu_max / solar_nu_max) ^ (3 : ℕ) * (delta_nu / solar_delta_nu) ^ (-4 : ℤ)
  let radius : ℚ := (nu_max / solar_nu_max) * (delta_nu / solar_delta_nu) ^ (-2 : ℤ)
  { mass_solar := mass
    radius_solar := radius
    log_g := Real.logb 10 ((mass / radius ^ 2 : ℚ) : ℝ) + 4.437
    density_solar := (delta_nu / solar_delta_nu) ^ (2 : ℕ)
    age_gyr := if 12/10 < mass then 5 / mass else 5 + (1 - mass) * 5 }

/-- One oscillation mode as produced by
`StellarSeismologyAnalyzer._identify_oscillation_modes`. -/
structure OscMode where
  frequency_uHz : ℚ
  amplitude : ℚ
  mode_order : ℤ
  degree : ℕ
  type : String
deriving DecidableEq

/-- Result of `StellarSeismologyAnalyzer._calculate_quality_metrics`. -/
structure QualityMetrics where
  signal_to_noise : ℚ
  n_modes_detected : ℕ
  quality_flag : String
deriving DecidableEq

/-- `StellarSeismologyAnalyzer._calculate_quality_metrics`:
`snr = max(power)/median(power)`; GOOD when `snr > 3 and len(modes) > 5`,
FAIR when `snr > 2 and len(modes) > 2`, else POOR. -/
def calculate_quality_metrics (power : List ℚ) (modes : List OscMode) : QualityMetrics :=
  let snr := Cosmos.npMax power / Cosmos.npMedian power
  { signal_to_noise := snr
    n_modes_detected := modes.length
    quality_flag :=
      if 3 < snr ∧ 5 < modes.length then "GOOD"
      else if 2 < snr ∧ 2 < modes.length then "FAIR"
      else "POOR" }

end StellarSeismology

namespace CelestialDetector

/-- One comet detection record as built inside
`CelestialBodyDetector.detect_comets` (the optional position-derived fields
`velocity_deg_day` and `moving` are omitted: no claim mentions them). -/
structure CometDetection where
  detection_time : ℚ
  peak_brightness : ℚ
  brightness_increase : ℚ
  activity_type : String
  confidence : ℚ
deriving DecidableEq

/-- The greedy forward scan of
`CelestialBodyDetector._remove_duplicate_detections`: keep a detection exactly
when its time exceeds the previously kept detection's time by more than the
threshold. -/
def dedupScan (thr : ℚ) : CometDetection → List CometDetection → List CometDetection
  | _, [] => []
  | last, d :: ds =>
      if thr < d.detection_time - last.detection_time then d :: dedupScan thr d ds
      else dedupScan thr last ds

/-- `CelestialBodyDetector._remove_duplicate_detections`: sort by detection
time, always keep the first record, then keep only records more than
`time_threshold` days after the previously kept one. -/
def remove_duplicate_detections (detections : List CometDetection)
    (time_threshold : ℚ) : List CometDetection :=
  match List.insertionSort (fun a b => a.detection_time ≤ b.detection_time) detections with
  | [] => []
  | x :: xs => x :: dedupScan time_threshold x xs

/-- Strict interior local maxima of a list, with their indices; models the
local-maximum search of `scipy.signal.find_peaks` (plateau handling is not
needed for the signals considered here, which have strict maxima). -/
def localMaximaAux : List ℚ → ℕ → List ℕ
  | a :: b :: c :: rest, i =>
      (if a < b ∧ c < b then [i + 1] else []) ++ localMaximaAux (b :: c :: rest) (i + 1)
  | _, _ => []

/-- Indices of the strict local maxima of `xs`. -/
def localMaxima (xs : List ℚ) : List ℕ := localMaximaAux xs 0

/-- The `height` condition of `scipy.signal.find_peaks`: keep peaks whose
value is at least `h`. -/
def filterByHeight (xs : List ℚ) (h : ℚ) (peaks : List ℕ) : List ℕ :=
  peaks.filter (fun p => decide (h ≤ xs.getD p 0))

/-- The `distance` condition of `scipy.signal.find_peaks`: process peaks in
order of decreasing height and delete any peak closer than `dist` samples to a
taller kept peak; the survivors are returned in their original index order. -/
def selectByPeakDistance (xs : List ℚ) (dist : ℕ) (peaks : List ℕ) : List ℕ :=
  let priority := List.insertionSort (fun a b => xs.getD b 0 ≤ xs.getD a 0) peaks
  let kept := priority.foldl
    (fun kept p => if kept.all (fun q => dist ≤ Nat.dist p q) then p :: kept else kept) []
  peaks.filter (fun p => kept.contains p)

/-- The qualifying period-candidate peaks of
`CelestialBodyDetector.detect_transiting_planets`:
`signal.find_peaks(power, height=0.1, distance=100)`. -/
def find_peaks_candidates (power : List ℚ) : List ℕ :=
  selectByPeakDistance power 100 (filterByHeight power (1/10) (localMaxima power))

/-- The peaks actually evaluated as period candidates: `peaks[:5]`, i.e. the
first five qualifying peaks in index order. -/
def evaluated_period_peaks (power : List ℚ) : List ℕ :=
  (find_peaks_candidates power).take 5

/-- The boxcar smoothing window width of `CelestialBodyDetector.detect_comets`:
`window = min(len(flux) // 10, 50)`. -/
def detect_comets_window (n : ℕ) : ℕ := min (n / 10) 50

/-- One transient event record as built by
`CelestialBodyDetector.detect_transient_events`. -/
structure TransientEvent where
  start_time : ℚ
  peak_time : ℚ
  end_time : ℚ
  duration_days : ℚ
  peak_magnitude : ℚ
  amplitude : ℚ
  type : String
  rise_time : ℚ
  decay_time : ℚ
deriving DecidableEq

/-- `CelestialBodyDetector._classify_transient(amplitude, duration)`. -/
def classify_transient (amplitude duration : ℚ) : String :=
  if 5 < amplitude then
    if duration < 1 then "Stellar Flare"
    else if duration < 100 then "Nova"
    else "Supernova"
  else if 2 < amplitude then
    if duration < 10 then "Dwarf Nova"
    else "Variable Star"
  else "Minor Transient"

/-- Characterisation of one event segment `[s, e]` (inclusive indices) inside
`detect_transient_events`: peak magnitude is the minimum magnitude of the
segment, peak time the time of its first occurrence (`np.argmin`), and the
type is computed — as in the source — from `peak_mag - reference_mag`
(note the sign) and the duration. -/
def characterizeTransient (time magnitude : List ℚ) (reference_mag : ℚ)
    (s e : ℕ) : TransientEvent :=
  let event_mags := (magnitude.drop s).take (e - s + 1)
  let event_times := (time.drop s).take (e - s + 1)
  let peak_mag := Cosmos.npMin event_mags
  let peak_time := event_times.getD (Cosmos.listArgmin event_mags) 0
  let duration := event_times.getLastD 0 - event_times.headD 0
  { start_time := event_times.headD 0
    peak_time := peak_time
    end_time := event_times.getLastD 0
    duration_days := duration
    peak_magnitude := peak_mag
    amplitude := reference_mag - peak_mag
    type := classify_transient (peak_mag - reference_mag) duration
    rise_time := peak_time - event_times.headD 0
    decay_time := event_times.getLastD 0 - peak_time }

/-- The event-scanning loop of `detect_transient_events`, written with an
explicit fuel argument (one unit per loop iteration; the caller passes
`time.length`, which is exactly the number of iterations of the Python
`for i in range(len(time))` loop).  The state is `none` outside an event and
`some s` inside an event that started at index `s`. -/
def transientLoop (time magnitude : List ℚ) (reference_mag threshold : ℚ) :
    ℕ → ℕ → Option ℕ → List TransientEvent
  | 0, _, _ => []
  | fuel + 1, i, st =>
      if i < time.length then
        let d := magnitude.getD i 0 - reference_mag
        match st with
        | none =>
            if d < -threshold then
              transientLoop time magnitude reference_mag threshold fuel (i + 1) (some i)
            else
              transientLoop time magnitude reference_mag threshold fuel (i + 1) none
        | some s =>
            if -threshold / 2 < d ∨ i = time.length - 1 then
              characterizeTransient time magnitude reference_mag s i ::
                transientLoop time magnitude reference_mag threshold fuel (i + 1) none
            else
              transientLoop time magnitude reference_mag threshold fuel (i + 1) (some s)
      else []

/-- `CelestialBodyDetector.detect_transient_events` with an explicit
`reference_mag` argument (the source defaults it to `np.median(magnitude)`)
and the detection threshold as a parameter: in the source
`threshold = self.sensitivity * np.std(delta_mag)`, whose square root does not
stay inside ℚ; theorems about this function pin the parameter down through
`threshold ^ 2 = sensitivity ^ 2 * npVariance delta_mag` and `0 ≤ threshold`,
which characterise the source's value exactly. -/
def detect_transient_events (time magnitude : List ℚ)
    (reference_mag threshold : ℚ) : List TransientEvent :=
  transientLoop time magnitude reference_mag threshold time.length 0 none

/-- One meteor / fast-transient record as built by
`CelestialBodyDetector.detect_meteors_and_fast_transients`. -/
structure Meteor where
  detection_time : ℚ
  peak_brightness : ℚ
  duration_hours : ℚ
  amplitude : ℚ
  event_type : String
  confidence : ℚ
deriving DecidableEq

/-- The inner `while` loop of `detect_meteors_and_fast_transients`: advance
the event end while the flux stays above `1 + threshold/2` and the end is not
the last sample.  Fuel-based; the caller passes `flux.length`, which bounds
the number of iterations. -/
def findEventEnd (flux : List ℚ) (threshold : ℚ) : ℕ → ℕ → ℕ
  | 0, j => j
  | fuel + 1, j =>
      if j < flux.length - 1 ∧ 1 + threshold / 2 < flux.getD j 0 then
        findEventEnd flux threshold fuel (j + 1)
      else j

/-- The outer scanning loop of `detect_meteors_and_fast_transients`,
fuel-based (the caller passes `flux.length`; the loop index strictly
increases each iteration, so this fuel is always sufficient). -/
def meteorLoop (time flux : List ℚ)
    (threshold min_duration_hours max_duration_hours : ℚ) :
    ℕ → ℕ → List Meteor
  | 0, _ => []
  | fuel + 1, i =>
      if i < flux.length - 2 then
        if 1 + threshold < flux.getD i 0 then
          let e := findEventEnd flux threshold flux.length i
          let duration_hours := (time.getD e 0 - time.getD i 0) * 24
          (if min_duration_hours ≤ duration_hours ∧ duration_hours ≤ max_duration_hours then
            let seg := (flux.drop i).take (e - i + 1)
            let peak_flux := Cosmos.npMax seg
            let peak_time := time.getD (i + Cosmos.listArgmax seg) 0
            [{ detection_time := peak_time
               peak_brightness := peak_flux
               duration_hours := duration_hours
               amplitude := peak_flux - 1
               event_type := if duration_hours < 1/10 then "meteor" else "fast_transient"
               confidence := min ((peak_flux - 1) / threshold) 1 }]
          else []) ++
            meteorLoop time flux threshold min_duration_hours max_duration_hours fuel (e + 1)
        else meteorLoop time flux threshold min_duration_hours max_duration_hours fuel (i + 1)
      else []

/-- `CelestialBodyDetector.detect_meteors_and_fast_transients` with the
detection threshold as a parameter: in the source
`threshold = self.sensitivity * np.std(flux_norm)`, which is positive exactly
when `sensitivity > 0` and the normalized flux is not constant. -/
def detect_meteors_and_fast_transients (time flux : List ℚ)
    (threshold min_duration_hours max_duration_hours : ℚ) : List Meteor :=
  let flux_norm := flux.map (fun f => f / Cosmos.npMedian flux)
  meteorLoop time flux_norm threshold min_duration_hours max_duration_hours flux_norm.length 0

end CelestialDetector

namespace StellarSeismology

/-- The rotation dictionary returned by
`StellarSeismologyAnalyzer._detect_stellar_rotation` in the detected case;
the source's `{'detected': False}` is modelled by `none` and a detected
rotation by `some info`, so `detected` is `Option.isSome`. -/
structure RotationInfo where
  rotational_splitting_uHz : ℚ
  rotation_period_days : ℚ
  angular_velocity_rad_s : ℝ

/-- All pairwise absolute frequency differences `|f_j - f_i|` for `i < j`, in
the double-loop order of the source. -/
def pairDiffs : List ℚ → List ℚ
  | [] => []
  | x :: xs => xs.map (fun y => |y - x|) ++ pairDiffs xs

/-- `StellarSeismologyAnalyzer._detect_stellar_rotation`: with fewer than 3
identified modes the result is not-detected; otherwise collect pairwise mode
frequency differences in the rotational-splitting range (0.1, 2.0) μHz, and
report a rotation (median splitting, derived period and angular velocity)
exactly when at least one difference is in range. -/
noncomputable def detect_stellar_rotation (modes : List OscMode) : Option RotationInfo :=
  if modes.length < 3 then none
  else
    let diffs := (pairDiffs (modes.map OscMode.frequency_uHz)).filter
      (fun d => decide (1/10 < d) && decide (d < 2))
    if 0 < diffs.length then
      let rot_split := Cosmos.npMedian diffs
      let rot_period_days := 1 / (2 * rot_split * (1 / 1000000)) / 86400
      some { rotational_splitting_uHz := rot_split
             rotation_period_days := rot_period_days
             angular_velocity_rad_s := 2 * Real.pi / ((rot_period_days : ℝ) * 86400) }
    else none

end StellarSeismology

namespace PatternDetector

/-- The number of histogram bins used by `PatternDetector._analyze_entropy`:
`n_bins = min(100, len(data) // 10)`. -/
def entropy_n_bins (n : ℕ) : ℕ := min 100 (n / 10)

/-- `scipy.stats.entropy` with its default natural logarithm: the input vector
is normalized to sum 1 and the Shannon entropy `-Σ p·ln p` is returned
(`0·ln 0 = 0`, as computed by `scipy.special.xlogy`). -/
noncomputable def scipyEntropy (pk : List ℝ) : ℝ :=
  (pk.map (fun p => Real.negMulLog (p / pk.sum))).sum

/-- The entropy dictionary returned by `PatternDetector._analyze_entropy`. -/
structure EntropyResult where
  shannon_entropy : ℝ
  max_entropy : ℝ
  normalized_entropy : ℝ
  interpretation : String

/-- `PatternDetector._analyze_entropy`, applied to the normalized histogram
`hist` (`np.histogram` counts divided by their sum) and the bin count: the
Shannon entropy of the positive entries uses the natural logarithm, while the
normalizing maximum is `log2(n_bins)`; the interpretation thresholds on the
normalized entropy are 0.8 and 0.5. -/
noncomputable def analyze_entropy (hist : List ℝ) (n_bins : ℕ) : EntropyResult :=
  let shannon := scipyEntropy (hist.filter (fun p => decide (0 < p)))
  let max_entropy : ℝ := Real.logb 2 n_bins
  let normalized := if 0 < max_entropy then shannon / max_entropy else 0
  { shannon_entropy := shannon
    max_entropy := max_entropy
    normalized_entropy := normalized
    interpretation :=
      if (8 : ℝ)/10 < normalized then "High randomness"
      else if (5 : ℝ)/10 < normalized then "Some structure"
      else "Highly structured" }

end PatternDetector

namespace CelestialDetector

/-- A concrete 503-sample power spectrum with six strict local maxima of
heights 1, 2, 3, 4, 5, 6 at indices 1, 101, 201, 301, 401, 501 (pairwise
exactly 100 bins apart, all above the 0.1 height threshold), used to analyse
the `peaks[:5]` truncation of `detect_transiting_planets`. -/
def sixPeakPower : List ℚ :=
  [0, 1] ++ List.replicate 99 0 ++ [2] ++ List.replicate 99 0 ++ [3] ++
    List.replicate 99 0 ++ [4] ++ List.replicate 99 0 ++ [5] ++
    List.replicate 99 0 ++ [6, 0]

end CelestialDetector

namespace StellarSeismology

/-- C2: with the solar calibration anchors ν_max = 3090 μHz and Δν = 135.1 μHz,
the closed-form scaling relations of `_estimate_stellar_parameters` return
exactly the solar values mass = 1, radius = 1, density = 1 and log g = 4.437;
the identities are exact in rational/real arithmetic, hence in particular hold
within floating-point tolerance. -/
theorem C2_solar_calibration_identity :
    (estimate_stellar_parameters solar_nu_max solar_delta_nu).mass_solar = 1 ∧
    (estimate_stellar_parameters solar_nu_max solar_delta_nu).radius_solar = 1 ∧
    (estimate_stellar_parameters solar_nu_max solar_delta_nu).density_solar = 1 ∧
    (estimate_stellar_parameters solar_nu_max solar_delta_nu).log_g = 4.437 := by
  have hν : solar_nu_max / solar_nu_max = (1 : ℚ) := by norm_num [solar_nu_max]
  have hΔ : solar_delta_nu / solar_delta_nu = (1 : ℚ) := by norm_num [solar_delta_nu]
  refine ⟨?_, ?_, ?_, ?_⟩ <;>
    simp [estimate_stellar_parameters, hν, hΔ]

/-- C10: `_detect_stellar_rotation` reports no rotation whenever fewer than 3
oscillation modes are supplied, whatever their frequencies. -/
theorem C10_rotation_needs_three_modes (modes : List OscMode)
    (h : modes.length < 3) :
    detect_stellar_rotation modes = none := by
  unfold detect_stellar_rotation
  rw [if_pos h]

/-- Witness for C10: two modes whose frequency difference 1 μHz lies inside
the rotational-splitting range (0.1, 2.0), yet no rotation is reported. -/
theorem C10_rotation_needs_three_modes_witness :
    ([⟨3000, 1, 0, 1, "Dipole (l=1)"⟩, ⟨3001, 1, 0, 1, "Dipole (l=1)"⟩] :
        List OscMode).length < 3 ∧
    (1 : ℚ)/10 < |(3001 : ℚ) - 3000| ∧ |(3001 : ℚ) - 3000| < 2 ∧
    detect_stellar_rotation
      [⟨3000, 1, 0, 1, "Dipole (l=1)"⟩, ⟨3001, 1, 0, 1, "Dipole (l=1)"⟩] = none :=
  ⟨by simp, by norm_num, by norm_num,
    C10_rotation_needs_three_modes _ (by simp)⟩

end StellarSeismology

namespace CelestialDetector

/-- C6 (amended): in `detect_comets` the boxcar window is
`min(len(flux) // 10, 50)`, so 50 is an upper bound on the window width, and
the window equals `len // 10` exactly when that is at most 50. -/
theorem C6_comet_window_cap (n : ℕ) :
    detect_comets_window n ≤ 50 ∧ (n ≤ 500 → detect_comets_window n = n / 10) := by
  unfold detect_comets_window
  omega

/-- Witness for C6 at a concrete length. -/
theorem C6_comet_window_cap_witness :
    detect_comets_window 300 ≤ 50 ∧ detect_comets_window 300 = 300 / 10 :=
  ⟨(C6_comet_window_cap 300).1, (C6_comet_window_cap 300).2 (by norm_num)⟩

/-- Counterexample for C6 as stated: for a flux series of length 200 the
window is 20 samples, fewer than the alleged lower bound of 50. -/
theorem C6_comet_window_counterexample :
    detect_comets_window 200 = 20 ∧ detect_comets_window 200 < 50 := by
  constructor <;> decide

end CelestialDetector

namespace StellarSeismology

/-- C5 (amended): the quality flag of `_calculate_quality_metrics` is GOOD iff
SNR = max(power)/median(power) exceeds 3 and *more than 5* (at least 6) modes
were detected; FAIR iff the GOOD condition fails, SNR exceeds 2 and *more
than 2* (at least 3) modes were detected; and POOR otherwise. -/
theorem C5_quality_flag_bands (power : List ℚ) (modes : List OscMode) :
    ((calculate_quality_metrics power modes).quality_flag = "GOOD" ↔
      3 < Cosmos.npMax power / Cosmos.npMedian power ∧ 5 < modes.length) ∧
    ((calculate_quality_metrics power modes).quality_flag = "FAIR" ↔
      ¬(3 < Cosmos.npMax power / Cosmos.npMedian power ∧ 5 < modes.length) ∧
      (2 < Cosmos.npMax power / Cosmos.npMedian power ∧ 2 < modes.length)) ∧
    ((calculate_quality_metrics power modes).quality_flag = "POOR" ↔
      ¬(3 < Cosmos.npMax power / Cosmos.npMedian power ∧ 5 < modes.length) ∧
      ¬(2 < Cosmos.npMax power / Cosmos.npMedian power ∧ 2 < modes.length)) := by
  have gf : ("GOOD" : String) ≠ "FAIR" := by decide
  have gp : ("GOOD" : String) ≠ "POOR" := by decide
  have fp : ("FAIR" : String) ≠ "POOR" := by decide
  unfold calculate_quality_metrics
  simp only
  split_ifs with h1 h2 <;>
    refine ⟨?_, ?_, ?_⟩ <;>
    simp_all

/-- Counterexample for C5 as stated: the power spectrum [1,1,1,1,10] has
SNR = 10 > 3 and exactly 5 modes are supplied (so the claim's "at least 5
modes" GOOD condition holds), yet the code returns FAIR, because its GOOD
branch requires strictly more than 5 modes. -/
theorem C5_quality_flag_counterexample :
    3 < (calculate_quality_metrics [1, 1, 1, 1, 10]
          (List.replicate 5 (⟨3000, 1, 0, 0, "Radial (l=0)"⟩ : OscMode))).signal_to_noise ∧
    (calculate_quality_metrics [1, 1, 1, 1, 10]
          (List.replicate 5 (⟨3000, 1, 0, 0, "Radial (l=0)"⟩ : OscMode))).n_modes_detected = 5 ∧
    (calculate_quality_metrics [1, 1, 1, 1, 10]
          (List.replicate 5 (⟨3000, 1, 0, 0, "Radial (l=0)"⟩ : OscMode))).quality_flag = "FAIR" := by
  have hmax : Cosmos.npMax [1, 1, 1, 1, 10] = 10 := by decide
  have hmed : Cosmos.npMedian [1, 1, 1, 1, 10] = 1 := by decide
  have hsnr : Cosmos.npMax [1, 1, 1, 1, 10] / Cosmos.npMedian [1, 1, 1, 1, 10] = 10 := by
    rw [hmax, hmed]; norm_num
  refine ⟨?_, ?_, ?_⟩ <;>
    simp only [calculate_quality_metrics, hsnr, List.length_replicate] <;>
    norm_num

end StellarSeismology

namespace PatternDetector

/-- C1: the artificiality score equals `min(100, S)` where `S` is the additive
point total described by the specification; the score is always between 0 and
100; and the classification bands are decided by `S`: ≥70 highly artificial,
≥50 possibly artificial, ≥30 structured, otherwise natural. -/
theorem C1_artificiality_score_spec (a : SignalAnalysis) :
    (calculate_artificiality_score a).score = min 100 (specPointSum a) ∧
    (calculate_artificiality_score a).score ≤ 100 ∧
    ((calculate_artificiality_score a).classification =
        "HIGHLY ARTIFICIAL - Strong candidate for intelligent signal" ↔
      70 ≤ specPointSum a) ∧
    ((calculate_artificiality_score a).classification =
        "POSSIBLY ARTIFICIAL - Warrants further investigation" ↔
      50 ≤ specPointSum a ∧ specPointSum a < 70) ∧
    ((calculate_artificiality_score a).classification =
        "STRUCTURED - Some non-random patterns" ↔
      30 ≤ specPointSum a ∧ specPointSum a < 50) ∧
    ((calculate_artificiality_score a).classification =
        "NATURAL - Consistent with random/natural processes" ↔
      specPointSum a < 30) := by
  have hsum : artificialityPoints a = specPointSum a := by
    unfold artificialityPoints specPointSum
    rw [Nat.mul_comm a.n_significant_periods 10]
    rfl
  have s1 : ("HIGHLY ARTIFICIAL - Strong candidate for intelligent signal" : String) ≠
      "POSSIBLY ARTIFICIAL - Warrants further investigation" := by decide
  have s2 : ("HIGHLY ARTIFICIAL - Strong candidate for intelligent signal" : String) ≠
      "STRUCTURED - Some non-random patterns" := by decide
  have s3 : ("HIGHLY ARTIFICIAL - Strong candidate for intelligent signal" : String) ≠
      "NATURAL - Consistent with random/natural processes" := by decide
  have s4 : ("POSSIBLY ARTIFICIAL - Warrants further investigation" : String) ≠
      "STRUCTURED - Some non-random patterns" := by decide
  have s5 : ("POSSIBLY ARTIFICIAL - Warrants further investigation" : String) ≠
      "NATURAL - Consistent with random/natural processes" := by decide
  have s6 : ("STRUCTURED - Some non-random patterns" : String) ≠
      "NATURAL - Consistent with random/natural processes" := by decide
  simp only [calculate_artificiality_score, hsum]
  split_ifs with g1 g2 g3 <;>
    refine ⟨?_, ?_, ?_, ?_, ?_, ?_⟩ <;>
    simp_all <;>
    omega

end PatternDetector

namespace CelestialDetector

/-- Every record kept by the greedy scan comes from the scanned list. -/
theorem dedupScan_subset (thr : ℚ) :
    ∀ (l : List CometDetection) (last : CometDetection),
      ∀ x ∈ dedupScan thr last l, x ∈ l := by
  intro l
  induction l with
  | nil => intro last x hx; simp [dedupScan] at hx
  | cons d ds ih =>
      intro last x hx
      rw [dedupScan] at hx
      split_ifs at hx with h
      · rcases List.mem_cons.mp hx with rfl | hx'
        · exact List.mem_cons_self _ _
        · exact List.mem_cons_of_mem _ (ih d x hx')
      · exact List.mem_cons_of_mem _ (ih last x hx)

/-- Starting from the record `last`, consecutive records kept by the greedy
scan are always more than `thr` apart in detection time. -/
theorem dedupScan_chain (thr : ℚ) :
    ∀ (l : List CometDetection) (last : CometDetection),
      List.Chain (fun a b => thr < b.detection_time - a.detection_time) last
        (dedupScan thr last l) := by
  intro l
  induction l with
  | nil => intro last; rw [dedupScan]; exact List.Chain.nil
  | cons d ds ih =>
      intro last
      rw [dedupScan]
      split_ifs with h
      · exact List.Chain.cons h (ih d)
      · exact ih last

/-- C3: the deduplicated comet list (threshold 5 days, as called from
`detect_comets`) is a subset of the raw candidate records — the kept records
are the raw ones themselves, not re-derived — and every pair of kept records
has detection times more than 5 days apart. -/
theorem C3_comet_dedup_invariant (detections : List CometDetection) :
    (∀ x ∈ remove_duplicate_detections detections 5, x ∈ detections) ∧
    List.Pairwise (fun a b => 5 < |b.detection_time - a.detection_time|)
      (remove_duplicate_detections detections 5) := by
  unfold remove_duplicate_detections
  rcases hs : List.insertionSort (fun a b => a.detection_time ≤ b.detection_time) detections
    with _ | ⟨x, xs⟩
  · rw [hs]
    exact ⟨by intro y hy; simp at hy, List.Pairwise.nil⟩
  · rw [hs]
    have hperm := List.perm_insertionSort
      (fun a b => a.detection_time ≤ b.detection_time) detections
    rw [hs] at hperm
    constructor
    · intro y hy
      refine hperm.subset ?_
      rcases List.mem_cons.mp hy with h | hy'
      · rw [h]; exact List.mem_cons_self x xs
      · exact List.mem_cons_of_mem x (dedupScan_subset 5 xs x y hy')
    · haveI : IsTrans CometDetection
          (fun a b => (5 : ℚ) < b.detection_time - a.detection_time) :=
        ⟨fun a b c hab hbc => by linarith⟩
      have hpw := List.chain_iff_pairwise.mp (dedupScan_chain 5 xs x)
      exact hpw.imp (fun h => by
        rw [abs_of_pos (by linarith)]
        linarith)

end CelestialDetector

namespace Cosmos

/-- A lower bound on a `foldl max` accumulation. -/
theorem le_foldl_max (l : List ℚ) : ∀ (a x : ℚ), x ≤ a → x ≤ l.foldl max a := by
  induction l with
  | nil => intro a x h; exact h
  | cons y ys ih => intro a x h; exact ih (max a y) x (le_trans h (le_max_left a y))

/-- The head of a non-empty list bounds its `np.max` from below. -/
theorem head_le_npMax (x : ℚ) (t : List ℚ) : x ≤ npMax (x :: t) :=
  le_foldl_max t x x le_rfl

end Cosmos

namespace CelestialDetector

/-- The element at index `i` bounds the maximum of any slice of the list that
starts at index `i`. -/
theorem getD_le_npMax_slice (xs : List ℚ) (i k : ℕ) (h : i < xs.length) :
    xs.getD i 0 ≤ Cosmos.npMax ((xs.drop i).take (k + 1)) := by
  rw [List.getD_eq_getElem xs 0 h, List.drop_eq_getElem_cons h, List.take_succ_cons]
  exact Cosmos.head_le_npMax _ _

/-- Every event emitted by the meteor scanning loop has confidence 1 when the
threshold is positive: the event can only start at a sample whose normalized
flux exceeds `1 + threshold`, so the peak excess over 1 exceeds the threshold
and `min((peak - 1)/threshold, 1.0)` saturates. -/
theorem meteorLoop_confidence (time flux : List ℚ)
    (thr minD maxD : ℚ) (hthr : 0 < thr) :
    ∀ (fuel i : ℕ), ∀ ev ∈ meteorLoop time flux thr minD maxD fuel i,
      ev.confidence = 1 := by
  intro fuel
  induction fuel with
  | zero => intro i ev hev; simp [meteorLoop] at hev
  | succ fuel ih =>
      intro i ev hev
      simp only [meteorLoop] at hev
      split at hev
      · split at hev
        · rcases List.mem_append.mp hev with h | h
          · split at h
            · rcases List.mem_singleton.mp h with rfl
              rename_i h1 h2 h3
              have hi : i < flux.length := by omega
              have hp : flux.getD i 0 ≤ Cosmos.npMax
                  ((flux.drop i).take (findEventEnd flux thr flux.length i - i + 1)) :=
                getD_le_npMax_slice flux i _ hi
              have hdiv : 1 ≤ (Cosmos.npMax
                  ((flux.drop i).take (findEventEnd flux thr flux.length i - i + 1)) - 1) / thr := by
                rw [le_div_iff₀ hthr]
                linarith
              exact min_eq_right hdiv
            · simp at h
          · exact ih (findEventEnd flux thr flux.length i + 1) ev h
        · exact ih (i + 1) ev hev
      · simp at hev

/-- C8: whenever the detection threshold is positive — in the source
`threshold = sensitivity * std(flux_norm)`, which is positive exactly when
`sensitivity > 0` and the normalized flux is not constant — every event
returned by `detect_meteors_and_fast_transients` has confidence exactly 1.0. -/
theorem C8_meteor_confidence_saturates (time flux : List ℚ)
    (threshold min_duration_hours max_duration_hours : ℚ) (hthr : 0 < threshold) :
    ∀ ev ∈ detect_meteors_and_fast_transients time flux threshold
        min_duration_hours max_duration_hours,
      ev.confidence = 1 := by
  intro ev hev
  exact meteorLoop_confidence time _ threshold _ _ hthr _ _ ev hev

end CelestialDetector

namespace CelestialDetector

set_option maxHeartbeats 2000000 in
/-- Witness for C8: on a concrete light curve with one fast transient and
threshold 1/2, the detected event has confidence exactly 1. -/
theorem C8_meteor_confidence_saturates_witness :
    (0 : ℚ) < 1/2 ∧
    (⟨3/100, 2, 6/25, 1, "fast_transient", 1⟩ : Meteor).confidence = 1 :=
  ⟨by norm_num,
    C8_meteor_confidence_saturates
      [0, 1/100, 2/100, 3/100, 4/100, 5/100, 6/100]
      [1, 1, 1, 2, 1, 1, 1] (1/2) (1/100) (1/2) (by norm_num)
      ⟨3/100, 2, 6/25, 1, "fast_transient", 1⟩
      (by
        have hmed : Cosmos.npMedian [1, 1, 1, 2, 1, 1, 1] = 1 := by decide
        norm_num [detect_meteors_and_fast_transients, hmed,
          meteorLoop, findEventEnd,
          Cosmos.npMax, Cosmos.listArgmax, Cosmos.listArgmaxAux])⟩

end CelestialDetector

namespace CelestialDetector

set_option maxHeartbeats 2000000 in
/-- C7: evaluation of `detect_transient_events` at a failing input, exhibiting
the sign slip at the `_classify_transient` call site.  The series (reference
magnitude 10, sensitivity 1/2, hence threshold `= (1/2)·std = 3`, pinned by
the first conjunct) produces two events with amplitude 6 magnitudes and
duration 0.1 days; `_classify_transient` itself maps (amplitude 6, duration
0.1) to "Stellar Flare" — as the claim states — but the code passes
`peak_mag - reference_mag = -6` instead of `reference_mag - peak_mag = 6`,
so every returned event is typed "Minor Transient". -/
theorem C7_transient_classification_bug :
    (3 : ℚ) ^ 2 = (1/2) ^ 2 *
      Cosmos.npVariance ([16, 4, 16, 4, 16, 4].map (fun m => m - 10)) ∧
    classify_transient 6 (1/10) = "Stellar Flare" ∧
    detect_transient_events [0, 1/10, 2/10, 3/10, 4/10, 5/10]
        [16, 4, 16, 4, 16, 4] 10 3 =
      [⟨1/10, 1/10, 2/10, 1/10, 4, 6, "Minor Transient", 0, 1/10⟩,
       ⟨3/10, 3/10, 4/10, 1/10, 4, 6, "Minor Transient", 0, 1/10⟩] := by
  refine ⟨by norm_num [Cosmos.npVariance, Cosmos.npMean], by norm_num [classify_transient], ?_⟩
  norm_num [detect_transient_events, transientLoop, characterizeTransient,
    classify_transient, Cosmos.npMin, Cosmos.listArgmin, Cosmos.listArgminAux]

end CelestialDetector

namespace CelestialDetector

/-- Every local-maximum index produced from running index `i` exceeds `i`. -/
theorem localMaximaAux_mem_gt :
    ∀ (l : List ℚ) (i : ℕ), ∀ j ∈ localMaximaAux l i, i < j := by
  intro l
  induction l with
  | nil => intro i j hj; simp [localMaximaAux] at hj
  | cons a t ih =>
      cases t with
      | nil => intro i j hj; simp [localMaximaAux] at hj
      | cons b t2 =>
          cases t2 with
          | nil => intro i j hj; simp [localMaximaAux] at hj
          | cons c rest =>
              intro i j hj
              rw [localMaximaAux] at hj
              rcases List.mem_append.mp hj with h | h
              · split at h
                · rw [List.mem_singleton.mp h]; omega
                · simp at h
              · have := ih (i + 1) j h
                omega

/-- The local-maximum indices are produced in strictly increasing order. -/
theorem localMaximaAux_pairwise :
    ∀ (l : List ℚ) (i : ℕ), List.Pairwise (· < ·) (localMaximaAux l i) := by
  intro l
  induction l with
  | nil => intro i; simp [localMaximaAux]
  | cons a t ih =>
      cases t with
      | nil => intro i; simp [localMaximaAux]
      | cons b t2 =>
          cases t2 with
          | nil => intro i; simp [localMaximaAux]
          | cons c rest =>
              intro i
              rw [localMaximaAux]
              rw [List.pairwise_append]
              refine ⟨?_, ih (i + 1), ?_⟩
              · split
                · simp
                · simp
              · intro x hx k hk
                split at hx
                · rw [List.mem_singleton.mp hx]
                  exact localMaximaAux_mem_gt _ (i + 1) k hk
                · simp at hx

/-- The qualifying peak indices of `detect_transiting_planets` come in
strictly increasing order. -/
theorem find_peaks_candidates_sorted (power : List ℚ) :
    List.Pairwise (· < ·) (find_peaks_candidates power) := by
  unfold find_peaks_candidates selectByPeakDistance filterByHeight localMaxima
  exact ((localMaximaAux_pairwise power 0).filter _).filter _

/-- C4 (amended): `detect_transiting_planets` evaluates the *first* (up to 5)
qualifying peaks in increasing frequency-index order — `peaks[:5]` — not the
5 tallest: every evaluated peak has a strictly smaller index than every
qualifying peak that was not evaluated. -/
theorem C4_evaluated_peaks_are_first (power : List ℚ) :
    ∀ p ∈ evaluated_period_peaks power, ∀ q ∈ find_peaks_candidates power,
      q ∉ evaluated_period_peaks power → p < q := by
  intro p hp q hq hq'
  have hpw : List.Pairwise (· < ·)
      ((find_peaks_candidates power).take 5 ++ (find_peaks_candidates power).drop 5) := by
    rw [List.take_append_drop]
    exact find_peaks_candidates_sorted power
  have hq2 : q ∈ (find_peaks_candidates power).drop 5 := by
    have hsplit := List.take_append_drop 5 (find_peaks_candidates power)
    rw [← hsplit] at hq
    rcases List.mem_append.mp hq with h | h
    · exact absurd h hq'
    · exact h
  exact (List.pairwise_append.mp hpw).2.2 p hp q hq2

end CelestialDetector

namespace CelestialDetector

set_option maxRecDepth 8000 in
/-- Counterexample for C4 as stated: `sixPeakPower` has 6 qualifying peaks
(more than 5); `peaks[:5]` evaluates the 5 leftmost, indices 1 … 401, and
skips index 501, whose power 6 exceeds the power 1 of the evaluated peak at
index 1 — so it is not true that every evaluated peak has power at least that
of every non-evaluated qualifying peak. -/
theorem C4_top5_counterexample :
    5 < (find_peaks_candidates sixPeakPower).length ∧
    ¬(∀ p ∈ evaluated_period_peaks sixPeakPower,
        ∀ q ∈ find_peaks_candidates sixPeakPower,
          q ∉ evaluated_period_peaks sixPeakPower →
            sixPeakPower.getD q 0 ≤ sixPeakPower.getD p 0) := by
  have h110 : (1 : ℚ)/10 = Rat.divInt 1 10 := by rw [Rat.divInt_eq_div]; norm_num
  have hcand : find_peaks_candidates sixPeakPower = [1, 101, 201, 301, 401, 501] := by
    unfold find_peaks_candidates
    rw [h110]
    decide
  have heval : evaluated_period_peaks sixPeakPower = [1, 101, 201, 301, 401] := by
    unfold evaluated_period_peaks
    rw [hcand]
    rfl
  constructor
  · rw [hcand]; decide
  · intro hcl
    have h1 : (1 : ℕ) ∈ evaluated_period_peaks sixPeakPower := by rw [heval]; decide
    have h501 : (501 : ℕ) ∈ find_peaks_candidates sixPeakPower := by rw [hcand]; decide
    have h501n : (501 : ℕ) ∉ evaluated_period_peaks sixPeakPower := by rw [heval]; decide
    have hle := hcl 1 h1 501 h501 h501n
    have ha : sixPeakPower.getD 501 0 = 6 := by decide
    have hb : sixPeakPower.getD 1 0 = 1 := by decide
    rw [ha, hb] at hle
    norm_num at hle

set_option maxRecDepth 8000 in
/-- Witness for C4 (amended) at the concrete spectrum `sixPeakPower`: peak 1
is evaluated, peak 501 qualifies but is not evaluated, and 1 < 501. -/
theorem C4_evaluated_peaks_are_first_witness :
    (1 : ℕ) ∈ evaluated_period_peaks sixPeakPower ∧
    (501 : ℕ) ∈ find_peaks_candidates sixPeakPower ∧
    (501 : ℕ) ∉ evaluated_period_peaks sixPeakPower ∧
    (1 : ℕ) < 501 := by
  have h110 : (1 : ℚ)/10 = Rat.divInt 1 10 := by rw [Rat.divInt_eq_div]; norm_num
  have hcand : find_peaks_candidates sixPeakPower = [1, 101, 201, 301, 401, 501] := by
    unfold find_peaks_candidates
    rw [h110]
    decide
  have heval : evaluated_period_peaks sixPeakPower = [1, 101, 201, 301, 401] := by
    unfold evaluated_period_peaks
    rw [hcand]
    rfl
  have h1 : (1 : ℕ) ∈ evaluated_period_peaks sixPeakPower := by rw [heval]; decide
  have h501 : (501 : ℕ) ∈ find_peaks_candidates sixPeakPower := by rw [hcand]; decide
  have h501n : (501 : ℕ) ∉ evaluated_period_peaks sixPeakPower := by rw [heval]; decide
  exact ⟨h1, h501, h501n,
    C4_evaluated_peaks_are_first sixPeakPower 1 h1 501 h501 h501n⟩

end CelestialDetector

namespace CelestialDetector

/-- Witness for C3: two raw candidates 3 days apart are deduplicated to the
earlier one, and the subset property is obtained by applying the invariant. -/
theorem C3_comet_dedup_invariant_witness :
    (⟨0, 2, 1/10, "outburst", 1⟩ : CometDetection) ∈
      ([⟨0, 2, 1/10, "outburst", 1⟩, ⟨3, 2, 1/10, "outburst", 1⟩] :
        List CometDetection) :=
  (C3_comet_dedup_invariant
      [⟨0, 2, 1/10, "outburst", 1⟩, ⟨3, 2, 1/10, "outburst", 1⟩]).1
    ⟨0, 2, 1/10, "outburst", 1⟩
    (by norm_num [remove_duplicate_detections, dedupScan,
      List.insertionSort, List.orderedInsert])

end CelestialDetector

namespace PatternDetector

/-- Dropping the non-positive entries of a list of non-negative reals does not
change its sum. -/
theorem sum_filter_pos_of_nonneg (l : List ℝ) (h : ∀ x ∈ l, 0 ≤ x) :
    (l.filter (fun p => decide (0 < p))).sum = l.sum := by
  induction l with
  | nil => simp
  | cons x t ih =>
      have hx := h x (List.mem_cons_self x t)
      have iht := ih (fun y hy => h y (List.mem_cons_of_mem x hy))
      rw [List.filter_cons]
      by_cases hx0 : 0 < x
      · simp [hx0, iht]
      · have hx00 : x = 0 := le_antisymm (not_lt.mp hx0) hx
        simp [hx0, hx00, iht]

/-- Gibbs-type bound: for positive reals summing to 1, the Shannon entropy
`Σ -p·ln p` (natural logarithm) is at most `ln` of the number of entries. -/
theorem sum_negMulLog_le_log_length (l : List ℝ) (hpos : ∀ x ∈ l, 0 < x)
    (hsum : l.sum = 1) :
    (l.map Real.negMulLog).sum ≤ Real.log l.length := by
  have h₀ : ∀ i ∈ (Finset.univ : Finset (Fin l.length)), (0 : ℝ) ≤ l.get i :=
    fun i _ => (hpos _ (l.get_mem i i.isLt)).le
  have h₁ : ∑ i : Fin l.length, l.get i = 1 := by
    rw [Fin.sum_univ_def, List.finRange_map_get, hsum]
  have hmem : ∀ i ∈ (Finset.univ : Finset (Fin l.length)),
      (l.get i)⁻¹ ∈ Set.Ioi (0 : ℝ) :=
    fun i _ => Set.mem_Ioi.mpr (inv_pos.mpr (hpos _ (l.get_mem i i.isLt)))
  have jensen := (strictConcaveOn_log_Ioi.concaveOn).le_map_sum h₀ h₁ hmem
  have hL : ∑ i : Fin l.length, l.get i • Real.log (l.get i)⁻¹ =
      (l.map Real.negMulLog).sum := by
    have hfun : (fun i : Fin l.length => l.get i • Real.log (l.get i)⁻¹) =
        (Real.negMulLog ∘ l.get) := by
      funext i
      simp only [Function.comp_apply, smul_eq_mul, Real.log_inv, Real.negMulLog]
      ring
    rw [Fin.sum_univ_def, hfun, ← List.map_map, List.finRange_map_get]
  have hR : ∑ i : Fin l.length, l.get i • (l.get i)⁻¹ = (l.length : ℝ) := by
    have hone : ∀ i ∈ (Finset.univ : Finset (Fin l.length)),
        l.get i • (l.get i)⁻¹ = (1 : ℝ) := fun i _ => by
      rw [smul_eq_mul, mul_inv_cancel₀ (hpos _ (l.get_mem i i.isLt)).ne']
    rw [Finset.sum_congr rfl hone]
    simp
  rw [hL, hR] at jensen
  exact jensen

/-- For any normalized n-bin histogram with at least 2 bins, the normalized
entropy of `_analyze_entropy` is at most ln 2 (the Shannon entropy uses the
natural logarithm while the normalizer is log2 of the bin count), and the
"High randomness" interpretation is unreachable. -/
theorem analyze_entropy_bound (hist : List ℝ) (n : ℕ) (hn : 2 ≤ n)
    (hlen : hist.length = n) (hpos : ∀ x ∈ hist, 0 ≤ x) (hsum : hist.sum = 1) :
    (analyze_entropy hist n).normalized_entropy ≤ Real.log 2 ∧
    (analyze_entropy hist n).interpretation ≠ "High randomness" := by
  have hlpos : ∀ x ∈ hist.filter (fun p => decide (0 < p)), 0 < x := by
    intro x hx
    exact of_decide_eq_true (List.mem_filter.mp hx).2
  have hlsum : (hist.filter (fun p => decide (0 < p))).sum = 1 := by
    rw [sum_filter_pos_of_nonneg hist hpos, hsum]
  have hlne : hist.filter (fun p => decide (0 < p)) ≠ [] := by
    intro h
    rw [h] at hlsum
    norm_num at hlsum
  have hllen : (hist.filter (fun p => decide (0 < p))).length ≤ n := by
    rw [← hlen]
    exact List.length_filter_le _ _
  have hn1 : (1 : ℝ) < (n : ℝ) := by exact_mod_cast (by omega : 1 < n)
  have hmax_pos : 0 < Real.logb 2 (n : ℝ) := Real.logb_pos (by norm_num) hn1
  have hE : scipyEntropy (hist.filter (fun p => decide (0 < p))) ≤ Real.log n := by
    unfold scipyEntropy
    rw [hlsum]
    simp only [div_one]
    calc ((hist.filter (fun p => decide (0 < p))).map Real.negMulLog).sum
        ≤ Real.log (hist.filter (fun p => decide (0 < p))).length :=
          sum_negMulLog_le_log_length _ hlpos hlsum
      _ ≤ Real.log n := by
          apply Real.log_le_log
          · exact_mod_cast List.length_pos.mpr hlne
          · exact_mod_cast hllen
  have hfrac : scipyEntropy (hist.filter (fun p => decide (0 < p))) /
      Real.logb 2 (n : ℝ) ≤ Real.log 2 := by
    rw [div_le_iff₀ hmax_pos, Real.logb, mul_comm (Real.log 2), div_mul_cancel₀]
    · exact hE
    · exact (Real.log_pos one_lt_two).ne'
  have hlt8 : scipyEntropy (hist.filter (fun p => decide (0 < p))) /
      Real.logb 2 (n : ℝ) < (8 : ℝ)/10 :=
    lt_of_le_of_lt hfrac (lt_trans Real.log_two_lt_d9 (by norm_num))
  constructor
  · simp only [analyze_entropy]
    rw [if_pos hmax_pos]
    exact hfrac
  · simp only [analyze_entropy]
    rw [if_pos hmax_pos, if_neg (not_lt.mpr hlt8.le)]
    split_ifs <;> decide

/-- C9: for any input signal of length at least 20 (so that the histogram has
`n_bins = min(100, len // 10) ≥ 2` bins), the normalized entropy computed by
`_analyze_entropy` on the normalized histogram is at most ln 2 ≈ 0.693 —
because the Shannon entropy uses the natural logarithm while the normalizer
is log2(n_bins) — and therefore the "High randomness" interpretation (which
requires normalized entropy > 0.8) is never returned. -/
theorem C9_high_randomness_unreachable (data_len : ℕ) (hist : List ℝ)
    (h20 : 20 ≤ data_len)
    (hlen : hist.length = entropy_n_bins data_len)
    (hpos : ∀ x ∈ hist, 0 ≤ x) (hsum : hist.sum = 1) :
    (analyze_entropy hist (entropy_n_bins data_len)).normalized_entropy ≤ Real.log 2 ∧
    (analyze_entropy hist (entropy_n_bins data_len)).interpretation ≠ "High randomness" := by
  have hn : 2 ≤ entropy_n_bins data_len := by
    unfold entropy_n_bins
    omega
  exact analyze_entropy_bound hist (entropy_n_bins data_len) hn hlen hpos hsum

/-- Witness for C9: a uniform two-bin histogram for a signal of length 20. -/
theorem C9_high_randomness_unreachable_witness :
    (analyze_entropy [1/2, 1/2] (entropy_n_bins 20)).normalized_entropy ≤ Real.log 2 ∧
    (analyze_entropy [1/2, 1/2] (entropy_n_bins 20)).interpretation ≠ "High randomness" :=
  C9_high_randomness_unreachable 20 [1/2, 1/2] (by norm_num)
    (by norm_num [entropy_n_bins])
    (by
      intro x hx
      rcases List.mem_cons.mp hx with h | hx2
      · rw [h]; norm_num
      · rcases List.mem_cons.mp hx2 with h | hx3
        · rw [h]; norm_num
        · simp at hx3)
    (by norm_num)

end PatternDetector
